import Mathlib

/-!
Verification development for the TalentX vacancies ingestion pipeline.

Shallow embedding of the Python sources:
  - `src/services/vacancy_parser.py`   (`VacancyParser`: message validation,
    Claude extraction call, vacancy normalization)
  - `src/services/channel_monitor.py`  (`ChannelMonitor`: cursor store,
    per-message processing with retry, per-channel monitoring cycle)
  - `src/services/monitor.py`          (`TelegramMonitor.get_new_messages`)
  - `src/services/telegram_parser.py`  (`VacancyMessageParser._format_contact`)

External collaborators (Telegram, the Claude HTTP endpoint, MongoDB) are
modelled as explicit inputs: the fetched message stream is a list, the
extraction endpoint is an oracle `Msg → ClaudeOutcome`, and the document
store is a list of records threaded through each operation.
-/

/-- The one kind of Python exception our embedded code paths can raise and
not catch internally: the `TypeError` from subscripting `None`
(`message.text[:200]`). -/
inductive PyErr
  | typeError
deriving DecidableEq

/-- A JSON field as seen through Python dict access: the key can be absent,
present with value `null`, or present with a value.  `d.get(k)` yields `None`
for both `absent` and `null`, while `d[k]` raises `KeyError` only on
`absent`. -/
inductive JVal (α : Type)
  | absent
  | null
  | val (a : α)
deriving DecidableEq

/-- A fetched Telegram message (`telethon` `Message`), restricted to the
fields the pipeline reads.  `text = none` models a message whose `.text`
attribute is Python `None` (e.g. a service message); `some ""` models an
empty string. -/
structure Msg where
  id : Int
  text : Option String
  date : Nat
  media : Bool
deriving DecidableEq

/-- The `contacts` sub-object of the extraction output; passed through
unmodified by `parse_vacancy`. -/
structure ContactInfo where
  ctype : String
  value : String
deriving DecidableEq

/-- The `salary.range` sub-object of the raw Claude JSON. -/
structure SalaryRangeJson where
  min : JVal Int
  max : JVal Int
deriving DecidableEq

/-- The `salary` sub-object of the raw Claude JSON. -/
structure SalaryJson where
  amount : JVal String
  currency : JVal String
  range : JVal SalaryRangeJson
deriving DecidableEq

/-- The raw JSON object produced by the Claude extraction call, with every
field access-tracked as a `JVal` so that Python's `d[k]` / `d.get(k)` /
`d.get(k, default)` distinctions are preserved. -/
structure ParsedJson where
  title : JVal String
  company : JVal String
  work_format : JVal String
  salary : JVal SalaryJson
  location : JVal String
  description : JVal String
  contacts : JVal ContactInfo
deriving DecidableEq

/-- The salary dict assembled by `VacancyParser.parse_vacancy`
(`{"amount": ..., "currency": ..., "range": {"min": ..., "max": ...}}`).
`amount`/`currency` are `Option` because Python can store `None` there. -/
structure SalaryOut where
  amount : Option String
  currency : Option String
  rmin : Int
  rmax : Int
deriving DecidableEq

/-- The `VacancyData` dataclass of `vacancy_parser.py`.  Fields typed
`Option` are those where the Python code can store `None` (a present-but-null
JSON value). -/
structure VacancyData where
  title : Option String
  published_date : Nat
  work_format : String
  salary : SalaryOut
  location : Option String
  company : String
  description : Option String
  contacts : Option ContactInfo
  raw_text : String
deriving DecidableEq

/-- One document of the `vacancies` collection as written by
`ChannelMonitor.process_message` (the wall-clock `parsed_at` stamp is
outside the model). -/
structure StoredRec where
  telegram_message_id : Int
  channel_id : String
  data : VacancyData
deriving DecidableEq

/-- The document-store state visible to one `ChannelMonitor` cycle: the
`vacancies` collection and the `channel_states` cursor collection
(`channel_id ↦ last_message_id`; `updated_at` is outside the model). -/
structure MonitorState where
  vacancies : List StoredRec
  channel_states : List (String × Int)
deriving DecidableEq

/-! ## Python string primitives used by the validator -/

/-- `str.lower`, restricted to the alphabets occurring in the keyword lists
and test texts: ASCII, Russian/Ukrainian Cyrillic (А-Я, Ё, Є, І, Ї, Ґ). -/
def pyLowerChar (c : Char) : Char :=
  if 'A' ≤ c ∧ c ≤ 'Z' then Char.ofNat (c.toNat + 32)
  else if 0x410 ≤ c.toNat ∧ c.toNat ≤ 0x42F then Char.ofNat (c.toNat + 32)
  else if c.toNat = 0x401 then Char.ofNat 0x451
  else if c.toNat = 0x404 then Char.ofNat 0x454
  else if c.toNat = 0x406 then Char.ofNat 0x456
  else if c.toNat = 0x407 then Char.ofNat 0x457
  else if c.toNat = 0x490 then Char.ofNat 0x491
  else c

/-- `str.lower` on a whole string. -/
def pyLower (s : String) : String := ⟨s.data.map pyLowerChar⟩

/-- Python's `needle in hay` substring test. -/
def pyContains (hay needle : String) : Bool :=
  decide (needle.data <:+: hay.data)

/-! ## `VacancyParser.is_valid_message` (vacancy_parser.py lines 74-195) -/

/-- `main_keywords` of `is_valid_message`, in source order. -/
def main_keywords : List String :=
  ["вакансія", "шукаємо", "потрібен", "потрібна",
   "відкрита вакансія", "нова вакансія",
   "запрошуємо", "приєднуйся", "у команду", "в команду",
   "робота", "пошук", "відкрита позиція",
   "терміново", "відгукуйся",
   "вакансия", "ищем", "требуется", "открыта вакансия",
   "ищу", "нужен", "нужна", "требуются", "открыта позиция",
   "работа", "поиск", "срочно", "откликайся",
   "hiring", "looking for", "job opening", "job opportunity",
   "position", "vacancy", "remote job", "job", "work"]

/-- `section_keywords` of `is_valid_message`, in source order (including the
source's duplicated entries; the Python `set` collapses them). -/
def section_keywords : List String :=
  ["вимоги", "умови", "обов\x27язки", "досвід", "компанія",
   "зарплата", "оплата", "контакти", "віддалено", "локація",
   "пропонуємо", "чекаємо", "опис", "проект", "графік",
   "навички", "знання", "освіта", "бонуси", "переваги",
   "досвід", "зп", "з/п",
   "требования", "условия", "обязанности", "опыт", "компания",
   "зарплата", "оплата", "контакты", "удаленно", "локация",
   "предлагаем", "ждем", "описание", "проект", "график",
   "навыки", "знания", "образование", "бонусы", "преимущества",
   "зп", "з/п",
   "requirements", "conditions", "responsibilities", "experience",
   "company", "salary", "payment", "contacts", "remote", "location",
   "offering", "description", "project", "schedule", "skills",
   "education", "benefits", "qualifications", "stack", "technologies"]

/-- `found_main_keywords` as a set: the distinct main keywords whose
lower-cased form occurs in the (lower-cased) text. -/
def found_main_keywords (textLower : String) : List String :=
  (main_keywords.filter (fun kw => pyContains textLower (pyLower kw))).dedup

/-- `found_section_keywords` as a set: the distinct section keywords whose
lower-cased form occurs in the (lower-cased) text. -/
def found_section_keywords (textLower : String) : List String :=
  (section_keywords.filter (fun kw => pyContains textLower (pyLower kw))).dedup

/-- `VacancyParser.is_valid_message`.  The first statement of the Python
body evaluates `message.text[:200]` as an argument of a debug-log call;
when `text` is `None` that subscript raises `TypeError` before the
`if not message.text` guard runs, so the `none` case is an error.  The
final remote-keyword scan only feeds logging and does not affect the
result. -/
def is_valid_message (m : Msg) : Except PyErr (Bool × String) :=
  match m.text with
  | none => .error .typeError
  | some t =>
    if t = "" then .ok (false, "Message contains no text")
    else if m.media = true ∧ t = "" then .ok (false, "Message contains only media")
    else if t.length < 30 then .ok (false, "Message is too short")
    else
      let lower := pyLower t
      if found_main_keywords lower = [] then
        .ok (false, "No job-related main keywords found")
      else if (found_section_keywords lower).length < 2 then
        .ok (false, "Not enough vacancy section keywords")
      else
        .ok (true, "Valid message")

/-! ## `VacancyParser.parse_with_claude` (vacancy_parser.py lines 197-273) -/

/-- The decoded body of a `200` answer from the extraction endpoint:
`malformed` is a body on which `json.loads` raises, `null` is a body that
decodes to JSON `null`, `fields p` is a JSON object. -/
inductive JsonBody
  | malformed
  | null
  | fields (p : ParsedJson)
deriving DecidableEq

/-- What the `httpx` POST to the Claude endpoint did: `exn` models a raised
exception (connect error, read error, the 30-second timeout), `response`
models a completed HTTP response. -/
inductive ClaudeOutcome
  | exn
  | response (status : Nat) (body : JsonBody)
deriving DecidableEq

/-- The request timeout of the extraction call:
`httpx.AsyncClient(timeout=30.0)`. -/
def claude_timeout_seconds : Nat := 30

/-- `VacancyParser.parse_with_claude`.  The whole body sits in a
`try/except Exception` that logs and `return None`s, so a raised timeout, a
non-200 status (re-raised inside the `try`), and an undecodable body all
collapse to `None` — exactly the value a clean JSON `null` ("not a remote
vacancy") produces. -/
def parse_with_claude (o : ClaudeOutcome) : Option ParsedJson :=
  match o with
  | .exn => none
  | .response status body =>
    if status ≠ 200 then none
    else
      match body with
      | .malformed => none
      | .null => none
      | .fields p => some p

/-! ## `VacancyParser.parse_vacancy` (vacancy_parser.py lines 275-332) -/

/-- `d.get(k)` / `d.get(k, None)`: `None` for an absent or null key. -/
def optOfJVal {α : Type} : JVal α → Option α
  | .val a => some a
  | _ => none

/-- `salary_range.get(k, 0) or 0`: absent defaults to `0`, a present `null`
becomes `None` and the `or 0` turns it into `0`; a present int `v` gives
`v or 0`, which is `v` whether or not `v = 0`. -/
def orZero : JVal Int → Int
  | .val v => v
  | _ => 0

/-- The construction of `VacancyData` inside `parse_vacancy` once a salary
dict and a range dict are in hand.  A `KeyError` from the subscript
access to the title, location, description or contacts key is
caught by the surrounding `except` and yields `None`. -/
def build_fields (p : ParsedJson) (m : Msg) (rawText wf : String)
    (s : SalaryJson) (minJ maxJ : JVal Int) : Option VacancyData :=
  let min_salary := orZero minJ
  let max_salary := orZero maxJ
  let company :=
    match p.company with
    | .val c => if c = "" then "Не указано" else c
    | _ => "Не указано"
  if p.title = .absent ∨ p.location = .absent ∨ p.description = .absent
      ∨ p.contacts = .absent then none
  else
    some
      { title := optOfJVal p.title
        published_date := m.date
        work_format := wf
        salary :=
          { amount :=
              match s.amount with
              | .absent => some "Не указано"
              | .null => none
              | .val a => some a
            currency := optOfJVal s.currency
            rmin := min_salary
            rmax := max_salary }
        location := optOfJVal p.location
        company := company
        description := optOfJVal p.description
        contacts := optOfJVal p.contacts
        raw_text := rawText }

/-- the range lookup with default zero dict: an absent range defaults to
the zero dict; a present `null` range makes the subsequent `.get` calls raise
`AttributeError`, caught by the surrounding `except` → `None`. -/
def build_salary (p : ParsedJson) (m : Msg) (rawText wf : String)
    (s : SalaryJson) : Option VacancyData :=
  match s.range with
  | .null => none
  | .absent => build_fields p m rawText wf s (.val 0) (.val 0)
  | .val r => build_fields p m rawText wf s r.min r.max

/-- The post-Claude part of `parse_vacancy` (lines 293-324): reject unless
the work-format check; the salary lookup with an empty-dict default
defaults an absent salary to the empty dict, while a present `null` salary
raises on `salary.get` (caught → `None`). -/
def build_vacancy (p : ParsedJson) (m : Msg) (rawText : String) :
    Option VacancyData :=
  match p.work_format with
  | .val wf =>
    if wf = "Віддаленно" then
      match p.salary with
      | .null => none
      | .absent => build_salary p m rawText wf ⟨.absent, .absent, .absent⟩
      | .val s => build_salary p m rawText wf s
    else none
  | _ => none

/-- `VacancyParser.parse_vacancy`.  `is_valid_message` runs before the
`try` block, so its `TypeError` propagates; everything after it is inside
`try/except → None`.  The extraction endpoint is the oracle `ext`.  When the
validator accepts, `m.text` is necessarily `some`, so the `getD` default is
never used. -/
def parse_vacancy (ext : Msg → ClaudeOutcome) (m : Msg) :
    Except PyErr (Option VacancyData) :=
  match is_valid_message m with
  | .error e => .error e
  | .ok (false, _) => .ok none
  | .ok (true, _) =>
    match parse_with_claude (ext m) with
    | none => .ok none
    | some p => .ok (build_vacancy p m (m.text.getD ""))

/-! ## `ChannelMonitor` cursor store (channel_monitor.py lines 34-51) -/

/-- `ChannelMonitor.get_last_message_id`: `find_one` on `channel_states`,
`doc["last_message_id"] if doc else 0`. -/
def get_last_message_id (states : List (String × Int)) (cid : String) : Int :=
  match states.find? (fun p => p.1 == cid) with
  | some p => p.2
  | none => 0

/-- `ChannelMonitor.update_last_message_id`: `update_one` with
`$set last_message_id = message_id` and `upsert=True` — the first document
matching `channel_id` is overwritten, otherwise a new one is appended.  The
write is an unconditional assignment. -/
def update_last_message_id (states : List (String × Int)) (cid : String)
    (mid : Int) : List (String × Int) :=
  match states with
  | [] => [(cid, mid)]
  | p :: rest =>
    if p.1 == cid then (cid, mid) :: rest
    else p :: update_last_message_id rest cid mid

/-! ## `ChannelMonitor.process_message` (channel_monitor.py lines 53-107) -/

/-- The `find_one` existence check on the `(telegram_message_id, channel_id)`
dedup key. -/
def vacancy_exists (store : List StoredRec) (mid : Int) (cid : String) : Bool :=
  store.any (fun r => r.telegram_message_id == mid && r.channel_id == cid)

/-- One attempt of `ChannelMonitor.process_message`: dedup check, then
`parse_vacancy`, then `insert_one`.  Returns `False` for an existing or
unparsed message, `True` after a successful insert; the internal
`except ... raise` re-raises any exception, so the `TypeError` coming out
of `parse_vacancy` escapes. -/
def process_message (ext : Msg → ClaudeOutcome) (store : List StoredRec)
    (m : Msg) (cid : String) : Except PyErr (Bool × List StoredRec) :=
  if vacancy_exists store m.id cid then .ok (false, store)
  else
    match parse_vacancy ext m with
    | .error e => .error e
    | .ok none => .ok (false, store)
    | .ok (some v) => .ok (true, store ++ [⟨m.id, cid, v⟩])

/-- The `tenacity` `@retry(stop=stop_after_attempt(3), ...)` wrapper: retry
on exception, at most `n + 1` attempts, re-raising the last exception.  The
backoff delays (`wait_exponential(multiplier=1, min=4, max=10)`) have no
effect on the value computed. -/
def retry_call {α : Type} : Nat → (Unit → Except PyErr α) → Except PyErr α
  | 0, f => f ()
  | n + 1, f =>
    match f () with
    | .ok a => .ok a
    | .error _ => retry_call n f

/-- `process_message` as called by `monitor_channel`: behind the 3-attempt
retry decorator.  Every error path of the model leaves the store unchanged
(all raising operations in the source precede the insert), so the retried
call sees the same store. -/
def process_message_retried (ext : Msg → ClaudeOutcome)
    (store : List StoredRec) (m : Msg) (cid : String) :
    Except PyErr (Bool × List StoredRec) :=
  retry_call 2 (fun _ => process_message ext store m cid)

/-! ## `ChannelMonitor.monitor_channel` (channel_monitor.py lines 109-154) -/

/-- Outcome of the `for message in messages` loop of `monitor_channel`. -/
structure BatchResult where
  vacs : List StoredRec
  processed : Nat
  skipped : Nat
  aborted : Bool
deriving DecidableEq

/-- The `for message in messages` loop: each message goes through the
retried `process_message`; a `True` result bumps `processed`, a `False`
result bumps `skipped`, and an exception propagates out of the loop — the
remaining messages are not visited (`aborted = true`) while the inserts made
so far stay in the store. -/
def run_batch (ext : Msg → ClaudeOutcome) (cid : String) :
    List Msg → List StoredRec → Nat → Nat → BatchResult
  | [], store, p, s => ⟨store, p, s, false⟩
  | m :: rest, store, p, s =>
    match process_message_retried ext store m cid with
    | .error _ => ⟨store, p, s, true⟩
    | .ok (true, store2) => run_batch ext cid rest store2 (p + 1) s
    | .ok (false, store2) => run_batch ext cid rest store2 p (s + 1)

/-- Modelled from the spec: `ChannelMonitor._validate_channel_id` is called
by `monitor_channel` but is not defined anywhere under `src/`; per the spec
it normalizes a channel reference (raw id, `-100`-prefixed id, or handle)
into the form the channel source expects.  The cycle uses its result
uniformly as the channel key, so it is modelled as the identity on
already-normalized references. -/
def validate_channel_id (cid : String) : String := cid

/-- `ChannelMonitor.monitor_channel`: one monitoring cycle for one channel.
The fetch result is `Except` because `get_channel_messages` re-raises fetch
errors; the outer `try/except` of `monitor_channel` catches everything
(fetch errors and per-message exceptions escaping the loop), logs, and
returns — so the cursor update at the end is skipped on any abort and when
`processed == 0`. -/
def monitor_channel (ext : Msg → ClaudeOutcome)
    (fetch : Except Unit (List Msg)) (cid0 : String) (st : MonitorState) :
    MonitorState :=
  let cid := validate_channel_id cid0
  match fetch with
  | .error _ => st
  | .ok [] => st
  | .ok (m :: rest) =>
    let res := run_batch ext cid (m :: rest) st.vacancies 0 0
    if res.aborted then { st with vacancies := res.vacs }
    else if res.processed ≠ 0 then
      { vacancies := res.vacs
        channel_states :=
          update_last_message_id st.channel_states cid
            ((m :: rest).getLast (List.cons_ne_nil m rest)).id }
    else { st with vacancies := res.vacs }

/-! ## The two fetchers (vacancy_parser.py lines 49-67, monitor.py 41-63) -/

/-- `VacancyParser.get_channel_messages`: iterates `iter_messages` (which
yields newest first) appending every message — the `if message.text` guard
only gates a debug log — and returns the list in iteration order; exceptions
are logged and re-raised.  No reversal takes place.  The channel-id
normalization and `get_entity` call are folded into the `fetch` oracle. -/
def get_channel_messages (fetch : Except Unit (List Msg)) :
    Except Unit (List Msg) :=
  match fetch with
  | .error e => .error e
  | .ok stream => .ok stream

/-- Python truthiness of `message.text`: `None` and `""` are falsy. -/
def pyTruthyText (m : Msg) : Bool :=
  match m.text with
  | none => false
  | some t => t ≠ ""

/-- `TelegramMonitor.get_new_messages`: keeps only text-bearing messages
from the newest-first stream, remembers `messages[0].id` (the newest) as the
channel's last id, and returns `messages[::-1]` — the batch reversed into
chronological order.  Exceptions are caught and yield `[]` with the last-id
map unchanged. -/
def get_new_messages (fetch : Except Unit (List Msg))
    (lastIds : List (String × Int)) (cid : String) :
    List Msg × List (String × Int) :=
  match fetch with
  | .error _ => ([], lastIds)
  | .ok stream =>
    let msgs := stream.filter pyTruthyText
    let lastIds' :=
      match msgs with
      | [] => lastIds
      | m :: _ => update_last_message_id lastIds cid m.id
    (msgs.reverse, lastIds')

/-- `a.id < b.id` holds between each pair of adjacent messages: the batch is
in strictly chronological (oldest-to-newest) order. -/
def chronological (l : List Msg) : Prop :=
  List.Chain' (fun a b => a.id < b.id) l

/-- Adjacent ids strictly decrease: the batch is newest-first, the order in
which Telethon's `iter_messages` yields. -/
def newestFirst (l : List Msg) : Prop :=
  List.Chain' (fun a b => b.id < a.id) l

/-! ## `VacancyMessageParser._format_contact` (telegram_parser.py 132-142) -/

/-- The whitespace set stripped by Python's `str.strip()` (ASCII part). -/
def pySpace (c : Char) : Bool :=
  c = ' ' ∨ c = '\t' ∨ c = '\n' ∨ c = '\r' ∨ c = '\x0b' ∨ c = '\x0c'

/-- Python `str.strip()`: drop leading and trailing whitespace. -/
def pyStrip (s : String) : String :=
  ⟨((s.data.dropWhile pySpace).reverse.dropWhile pySpace).reverse⟩

/-- `"https://t.me/"`, the URL base `_format_contact` normalizes to. -/
def tmeBase : String := "https://t.me/"

/-- `VacancyMessageParser._format_contact`.  The argument is `Option`
because the caller passes the contact lookup result, which can be `None`;
`if not contact` catches `None` and `""`. -/
def format_contact (c : Option String) : Option String :=
  match c with
  | none => none
  | some s =>
    if s = "" then none
    else
      let t := pyStrip s
      if t.data.head? = some '@' then some (tmeBase ++ ⟨t.data.tail⟩)
      else if ¬ (tmeBase.data.isPrefixOf t.data = true) then some (tmeBase ++ t)
      else some t

/-! ## Auxiliary definitions for the statements -/

/-- Propositional equality on `Except` results is decidable, so concrete
pipeline runs can be checked by `decide`. -/
instance {ε α : Type} [DecidableEq ε] [DecidableEq α] :
    DecidableEq (Except ε α) := fun x y =>
  match x, y with
  | .ok a, .ok b => decidable_of_iff (a = b) (by simp)
  | .error e, .error f => decidable_of_iff (e = f) (by simp)
  | .ok _, .error _ => isFalse (by intro h; cases h)
  | .error _, .ok _ => isFalse (by intro h; cases h)

/-- Number of stored vacancies carrying a given
`(telegram_message_id, channel_id)` dedup key. -/
def countKey (store : List StoredRec) (mid : Int) (cid : String) : Nat :=
  (store.filter
    (fun r => r.telegram_message_id == mid && r.channel_id == cid)).length

/-- The `salary.range.min` field as found in the raw extraction JSON
(`absent` when any link of the path is missing). -/
def rawRangeMin (p : ParsedJson) : JVal Int :=
  match p.salary with
  | .val s =>
    match s.range with
    | .val r => r.min
    | _ => .absent
  | _ => .absent

/-- The `salary.range.max` field as found in the raw extraction JSON. -/
def rawRangeMax (p : ParsedJson) : JVal Int :=
  match p.salary with
  | .val s =>
    match s.range with
    | .val r => r.max
    | _ => .absent
  | _ => .absent

/-! ## Concrete inputs used by witnesses and counterexamples -/

/-- A 56-character message text the validator accepts: main keywords
`вакансія`/`потрібен`/`робота`-free, section keywords `вимоги`, `досвід`,
`зарплата`. -/
def validText : String := "вакансія: потрібен QA. вимоги: досвід. зарплата: 1000usd"

/-- A raw extraction JSON with null `salary.range.min/max`, null `company`,
and all required fields present. -/
def pGood : ParsedJson :=
  { title := .val "QA Engineer", company := .null,
    work_format := .val "Віддаленно",
    salary := .val { amount := .val "1000", currency := .null,
                     range := .val { min := .null, max := .null } },
    location := .val "Kyiv", description := .val "testing",
    contacts := .val ⟨"telegram_username", "user"⟩ }

/-- An extraction oracle that always answers `200` with `pGood`. -/
def extW : Msg → ClaudeOutcome := fun _ => .response 200 (.fields pGood)

/-- A valid, parseable message with id 11. -/
def mGood : Msg := ⟨11, some validText, 5, false⟩

/-- The candidate `parse_vacancy` builds from `mGood` under `extW`. -/
def vGood : VacancyData :=
  { title := some "QA Engineer", published_date := 5,
    work_format := "Віддаленно",
    salary := { amount := some "1000", currency := none, rmin := 0, rmax := 0 },
    location := some "Kyiv", company := "Не указано",
    description := some "testing",
    contacts := some ⟨"telegram_username", "user"⟩, raw_text := validText }

/-- A message whose `.text` is Python `None` (e.g. a service message): its
processing raises `TypeError`. -/
def mNone : Msg := ⟨7, none, 0, true⟩

/-- A message with a short text: the validator rejects it, so it is
validated-and-skipped without error. -/
def mShort : Msg := ⟨5, some "short", 0, false⟩

/-- Text-bearing message with id 1 (the older of the two-message stream). -/
def msg1 : Msg := ⟨1, some "first", 0, false⟩

/-- Text-bearing message with id 2 (the newer of the two-message stream). -/
def msg2 : Msg := ⟨2, some "second", 0, false⟩

/-! ## Helper lemmas -/

/-- An advance call overwrites the channel's cursor with exactly the id it
was given (last-writer-wins upsert). -/
theorem get_update_last_self (states : List (String × Int)) (cid : String)
    (mid : Int) :
    get_last_message_id (update_last_message_id states cid mid) cid = mid := by
  induction states with
  | nil =>
    simp [update_last_message_id, get_last_message_id, List.find?]
  | cons p rest ih =>
    by_cases h : p.1 == cid
    · simp only [update_last_message_id, h, if_true, get_last_message_id]
      rw [List.find?_cons_of_pos _ (by simp)]
    · simp only [update_last_message_id, h, if_false, Bool.false_eq_true,
        ite_false, get_last_message_id] at ih ⊢
      rw [List.find?_cons_of_neg _ (by simpa using h)]
      exact ih

/-! ## Claims -/

/-- C8, counterexample (closed): starting from a cursor of 5 for channel
`"c"`, a single advance call with message id 3 leaves the stored
`last_message_id` strictly smaller than before — the claim that
`last_message_id` is non-decreasing after any advance call is false on
`update_last_message_id`, which performs an unconditional `$set`. -/
theorem claim_C8_counterexample :
    get_last_message_id
        (update_last_message_id (update_last_message_id [] "c" 5) "c" 3) "c"
      < get_last_message_id (update_last_message_id [] "c" 5) "c" := by
  decide

/-- C8, amended: an advance call sets the channel's `last_message_id` to
exactly the `message_id` argument (last-writer-wins upsert); the stored
value is therefore non-decreasing only when the sequence of argument ids
is non-decreasing, which `update_last_message_id` itself does not
enforce. -/
theorem claim_C8_amended (states : List (String × Int)) (cid : String)
    (mid : Int) :
    get_last_message_id (update_last_message_id states cid mid) cid = mid :=
  get_update_last_self states cid mid

/-- C4, counterexample (closed): when the `httpx` call raises (timeout or
service error), `parse_with_claude` returns `None` — exactly the value a
clean JSON `null` ("not a remote vacancy") answer produces.  No
`ExtractionUnavailable`-style failure is propagated; the claim that an
error is never silently turned into the negative outcome is false. -/
theorem claim_C4_counterexample :
    parse_with_claude .exn = none
      ∧ parse_with_claude (.response 200 .null) = none :=
  ⟨rfl, rfl⟩

/-- C4, amended: the request timeout is fixed at 30 seconds, but when the
extraction service errors or times out, `parse_with_claude` catches the
exception (and the non-200 status it raises internally) and returns `None`
— the same outcome as a clean "not a vacancy" result; no distinct failure
reaches the caller. -/
theorem claim_C4_amended :
    claude_timeout_seconds = 30
      ∧ parse_with_claude .exn = none
      ∧ ∀ (status : Nat) (body : JsonBody), status ≠ 200 →
          parse_with_claude (.response status body) = none := by
  refine ⟨rfl, rfl, fun status body h => ?_⟩
  simp [parse_with_claude, h]

/-- C4, witness for the amended claim at a concrete service error: a 500
answer yields `None`. -/
theorem claim_C4_amended_witness :
    parse_with_claude (.response 500 .null) = none :=
  claim_C4_amended.2.2 500 .null (by decide)

/-- C5, evaluation at the failing input (code bug): a message whose `.text`
is `None` makes `is_valid_message` raise `TypeError` — the debug-log
argument `message.text[:200]` is evaluated before the `if not message.text`
guard — although the claim (and the function's own dead `None`-handling
branch) require the classification `(False, "no text content")`.  The parts
of the claim the code does satisfy are also evaluated: an empty text is
rejected with the no-text reason and a 20-character keyword-laden text is
rejected as too short. -/
theorem claim_C5_bug :
    is_valid_message ⟨1, none, 0, true⟩ = .error .typeError
      ∧ is_valid_message ⟨2, some "", 0, false⟩
          = .ok (false, "Message contains no text")
      ∧ ("вакансія зарплата зп".length = 20
          ∧ is_valid_message ⟨3, some "вакансія зарплата зп", 0, false⟩
              = .ok (false, "Message is too short")) := by
  exact ⟨rfl, by decide, by decide, by decide⟩

/-- C3, confirmed: if a `process_message` call stored a vacancy for
`(m.id, cid)` (returned `True`), then the store holds exactly one record
with that dedup key, and running the same call again finds the existing
record, performs no insert, leaves the store unchanged, and returns the
already-exists outcome `False` — not an error. -/
theorem claim_C3 (ext : Msg → ClaudeOutcome) (store : List StoredRec)
    (m : Msg) (cid : String) (store' : List StoredRec)
    (h : process_message ext store m cid = .ok (true, store')) :
    countKey store' m.id cid = 1
      ∧ process_message ext store' m cid = .ok (false, store') := by
  unfold process_message at h
  by_cases hex : vacancy_exists store m.id cid
  · simp [hex] at h
  · rw [if_neg hex] at h
    cases hp : parse_vacancy ext m with
    | error e => rw [hp] at h; cases h
    | ok o =>
      cases o with
      | none => rw [hp] at h; simp at h
      | some v =>
        rw [hp] at h
        simp only [Except.ok.injEq, Prod.mk.injEq, true_and] at h
        have hstore : store' = store ++ [⟨m.id, cid, v⟩] := h.symm
        have hkey0 : countKey store m.id cid = 0 := by
          unfold countKey
          have : store.filter
              (fun r => r.telegram_message_id == m.id && r.channel_id == cid)
                = [] := by
            rw [List.filter_eq_nil_iff]
            intro r hr
            have hx : ∀ x ∈ store,
                x.telegram_message_id = m.id → ¬x.channel_id = cid := by
              simpa [vacancy_exists] using hex
            simpa using hx r hr
          simp [this]
        have hmem : vacancy_exists store' m.id cid = true := by
          subst hstore
          simp [vacancy_exists, List.any_append]
        constructor
        · subst hstore
          unfold countKey at hkey0 ⊢
          rw [List.filter_append, List.length_append, hkey0]
          simp
        · unfold process_message
          rw [if_pos hmem]

set_option maxRecDepth 8000 in
/-- C3, witness: `mGood` is inserted by the first call; the second call on
the resulting store returns `False` and leaves the one record in place. -/
theorem claim_C3_witness :
    countKey [⟨11, "c", vGood⟩] mGood.id "c" = 1
      ∧ process_message extW [⟨11, "c", vGood⟩] mGood "c"
          = .ok (false, [⟨11, "c", vGood⟩]) :=
  claim_C3 extW [] mGood "c" [⟨11, "c", vGood⟩] (by decide)

set_option maxRecDepth 8000 in
/-- C1, counterexample (closed): a one-message batch whose message is
validated-and-skipped (text too short) is handled without error — the
retried `process_message` returns `False`, no exception — yet at the end of
the cycle the cursor is NOT advanced to the batch's newest id 5: the store
state is unchanged and the channel's cursor reads 0.  `monitor_channel`
advances only when `processed` (newly persisted messages) is non-zero, so
"at least one message successfully handled" is not sufficient. -/
theorem claim_C1_counterexample :
    process_message_retried extW [] mShort "c" = .ok (false, [])
      ∧ monitor_channel extW (.ok [mShort]) "c" ⟨[], []⟩ = ⟨[], []⟩
      ∧ get_last_message_id
          (monitor_channel extW (.ok [mShort]) "c" ⟨[], []⟩).channel_states "c"
          = 0
      ∧ mShort.id = 5 := by
  exact ⟨by decide, by decide, by decide, rfl⟩

/-- C1, amended: the cursor advances exactly when at least one message of
the batch was newly persisted (`process_message` returned `True`) and no
message's processing raised; it is then set to the id of the LAST element
of the fetched batch — the oldest message when the fetch order is
newest-first, since `get_channel_messages` does not reverse.  When nothing
was persisted, or the batch aborted on an exception, the cursor is left
unchanged even if every message was validated-and-skipped. -/
theorem claim_C1_amended (ext : Msg → ClaudeOutcome) (cid : String)
    (st : MonitorState) (msgs : List Msg) (hne : msgs ≠ []) :
    ((run_batch ext cid msgs st.vacancies 0 0).aborted = false →
      (run_batch ext cid msgs st.vacancies 0 0).processed ≠ 0 →
      get_last_message_id
          (monitor_channel ext (.ok msgs) cid st).channel_states cid
        = (msgs.getLast hne).id)
    ∧ ((run_batch ext cid msgs st.vacancies 0 0).processed = 0 ∨
        (run_batch ext cid msgs st.vacancies 0 0).aborted = true →
      (monitor_channel ext (.ok msgs) cid st).channel_states
        = st.channel_states) := by
  cases msgs with
  | nil => exact absurd rfl hne
  | cons m rest =>
    simp only [monitor_channel, validate_channel_id]
    by_cases hab : (run_batch ext cid (m :: rest) st.vacancies 0 0).aborted
    · rw [if_pos hab]
      refine ⟨fun hf => absurd hab (by simp [hf]), fun _ => rfl⟩
    · rw [if_neg hab]
      by_cases hp :
          (run_batch ext cid (m :: rest) st.vacancies 0 0).processed = 0
      · rw [if_neg (by simpa using hp)]
        exact ⟨fun _ hq => absurd hp hq, fun _ => rfl⟩
      · rw [if_pos (by simpa using hp)]
        refine ⟨fun _ _ => get_update_last_self _ _ _, fun hq => ?_⟩
        rcases hq with hq | hq
        · exact absurd hq hp
        · exact absurd hq (by simpa using hab)

set_option maxRecDepth 8000 in
/-- C1, witness for the amended claim: a one-message batch that persists a
vacancy advances the cursor of channel `"c"` to that message's id 11. -/
theorem claim_C1_amended_witness :
    get_last_message_id
        (monitor_channel extW (.ok [mGood]) "c" ⟨[], []⟩).channel_states "c"
      = ([mGood].getLast (by decide)).id :=
  (claim_C1_amended extW "c" ⟨[], []⟩ [mGood] (by decide)).1
    (by decide) (by decide)

set_option maxRecDepth 8000 in
/-- C2, counterexample (closed): in the batch `[mNone, mGood]`, processing
`mNone` raises (`TypeError` on its `None` text, re-raised through all three
retry attempts), and the cycle ends with a completely unchanged state: the
following message `mGood` — which on its own would be persisted, as the
second conjunct shows — is never processed, and no cursor is written.  A
single message's failure thus aborts the rest of the channel cycle, contrary
to the claim. -/
theorem claim_C2_counterexample :
    monitor_channel extW (.ok [mNone, mGood]) "c" ⟨[], []⟩ = ⟨[], []⟩
      ∧ process_message_retried extW [] mGood "c"
          = .ok (true, [⟨11, "c", vGood⟩]) := by
  exact ⟨by decide, by decide⟩

/-- C2, amended: an exception raised while processing a single message is
retried up to 3 times by the `tenacity` decorator and, still failing,
propagates out of the per-message loop: the remaining messages of the batch
are not visited and the cursor update is skipped.  The channel-level
`try/except` of `monitor_channel` then catches and logs it, so nothing
escapes the cycle — but the failure does abort the remainder of the cycle
rather than letting it proceed to the next message. -/
theorem claim_C2_amended (ext : Msg → ClaudeOutcome) (cid : String)
    (st : MonitorState) (m : Msg) (rest : List Msg) (e : PyErr)
    (h : process_message_retried ext st.vacancies m cid = .error e) :
    run_batch ext cid (m :: rest) st.vacancies 0 0
        = ⟨st.vacancies, 0, 0, true⟩
      ∧ monitor_channel ext (.ok (m :: rest)) cid st = st := by
  have hb : run_batch ext cid (m :: rest) st.vacancies 0 0
      = ⟨st.vacancies, 0, 0, true⟩ := by
    unfold run_batch
    rw [h]
  refine ⟨hb, ?_⟩
  simp only [monitor_channel, validate_channel_id, hb]
  simp

set_option maxRecDepth 8000 in
/-- C2, witness for the amended claim at the `None`-text message `mNone`:
its processing fails, the batch `[mNone, mGood]` stops there, and the cycle
returns the state unchanged. -/
theorem claim_C2_amended_witness :
    run_batch extW "c" [mNone, mGood] (MonitorState.mk [] []).vacancies 0 0
        = ⟨(MonitorState.mk [] []).vacancies, 0, 0, true⟩
      ∧ monitor_channel extW (.ok [mNone, mGood]) "c" ⟨[], []⟩ = ⟨[], []⟩ :=
  claim_C2_amended extW "c" ⟨[], []⟩ mNone [mGood] .typeError (by decide)

/-- C9, counterexample (closed): `VacancyParser.get_channel_messages` — the
fetcher the `ChannelMonitor` worker uses — returns a newest-first stream
unchanged: the batch `[msg2, msg1]` (ids 2, 1) comes back in the same
order, which is not chronologically increasing.  The core does not reverse
this batch before processing. -/
theorem claim_C9_counterexample :
    get_channel_messages (.ok [msg2, msg1]) = .ok [msg2, msg1]
      ∧ newestFirst [msg2, msg1]
      ∧ ¬ chronological [msg2, msg1] := by
  refine ⟨rfl, ?_, ?_⟩
  · simp [newestFirst, msg1, msg2, List.chain'_cons]
  · simp [chronological, msg1, msg2, List.chain'_cons]

/-- C9, amended: only `TelegramMonitor.get_new_messages` normalizes the
order — it filters the newest-first stream to text-bearing messages and
returns it reversed, so its batches are processed oldest to newest
(strictly increasing ids); `VacancyParser.get_channel_messages`, the
fetcher used by `ChannelMonitor.monitor_channel`, returns the stream in
source order without reversing, so that path processes newest-first. -/
theorem claim_C9_amended (stream : List Msg)
    (lastIds : List (String × Int)) (cid : String)
    (h : newestFirst stream) :
    chronological (get_new_messages (.ok stream) lastIds cid).1
      ∧ get_channel_messages (.ok stream) = .ok stream := by
  refine ⟨?_, rfl⟩
  haveI : IsTrans Msg (fun a b => b.id < a.id) :=
    ⟨fun _ _ _ h1 h2 => lt_trans h2 h1⟩
  haveI : IsTrans Msg (fun a b => a.id < b.id) :=
    ⟨fun _ _ _ h1 h2 => lt_trans h1 h2⟩
  have hpw : List.Pairwise (fun a b => b.id < a.id) stream :=
    List.chain'_iff_pairwise.mp h
  have hf : List.Pairwise (fun a b => b.id < a.id)
      (stream.filter pyTruthyText) :=
    List.Pairwise.sublist (List.filter_sublist stream) hpw
  have hr : List.Pairwise (fun a b => a.id < b.id)
      (stream.filter pyTruthyText).reverse :=
    List.pairwise_reverse.mpr hf
  exact List.chain'_iff_pairwise.mpr hr

/-- C9, witness for the amended claim: the newest-first two-message stream
`[msg2, msg1]` is returned by `get_new_messages` in chronological order. -/
theorem claim_C9_amended_witness :
    chronological (get_new_messages (.ok [msg2, msg1]) [] "c").1
      ∧ get_channel_messages (.ok [msg2, msg1]) = .ok [msg2, msg1] :=
  claim_C9_amended [msg2, msg1] [] "c"
    (by simp [newestFirst, msg1, msg2, List.chain'_cons])

/-- C6, confirmed: for a message whose text has at least 30 characters, the
validator accepts (`(True, "Valid message")`) iff the lower-cased text
contains at least one main (primary vacancy-indicator) keyword and at least
2 distinct section-indicator keywords; with no main keyword it rejects with
the no-main-keywords reason, and with a main keyword but fewer than 2
distinct section keywords it rejects with the
not-enough-section-keywords reason. -/
theorem claim_C6 (m : Msg) (t : String) (ht : m.text = some t)
    (hlen : 30 ≤ t.length) :
    (is_valid_message m = .ok (true, "Valid message") ↔
      (∃ kw ∈ main_keywords, pyContains (pyLower t) (pyLower kw) = true)
        ∧ 2 ≤ (found_section_keywords (pyLower t)).length)
    ∧ ((∀ kw ∈ main_keywords, pyContains (pyLower t) (pyLower kw) = false) →
        is_valid_message m = .ok (false, "No job-related main keywords found"))
    ∧ ((∃ kw ∈ main_keywords, pyContains (pyLower t) (pyLower kw) = true) →
        (found_section_keywords (pyLower t)).length < 2 →
        is_valid_message m
          = .ok (false, "Not enough vacancy section keywords")) := by
  have hne : t ≠ "" := by
    intro h
    rw [h] at hlen
    simp [String.length] at hlen
  have hmed : ¬ (m.media = true ∧ t = "") := fun hc => hne hc.2
  have h30 : ¬ (t.length < 30) := by omega
  have hmain_iff : (found_main_keywords (pyLower t) = []) ↔
      (∀ kw ∈ main_keywords, pyContains (pyLower t) (pyLower kw) = false) := by
    unfold found_main_keywords
    rw [List.dedup_eq_nil, List.filter_eq_nil_iff]
    constructor
    · intro h kw hkw
      simpa using h kw hkw
    · intro h kw hkw
      simp [h kw hkw]
  have hex_iff : (¬ found_main_keywords (pyLower t) = []) ↔
      (∃ kw ∈ main_keywords, pyContains (pyLower t) (pyLower kw) = true) := by
    rw [hmain_iff]
    push_neg
    simp [Bool.not_eq_false]
  have hred : is_valid_message m =
      (if found_main_keywords (pyLower t) = [] then
        .ok (false, "No job-related main keywords found")
      else if (found_section_keywords (pyLower t)).length < 2 then
        .ok (false, "Not enough vacancy section keywords")
      else .ok (true, "Valid message")) := by
    unfold is_valid_message
    rw [ht]
    simp only [if_neg hne, if_neg hmed, if_neg h30]
  refine ⟨?_, ?_, ?_⟩
  · rw [hred]
    by_cases hm : found_main_keywords (pyLower t) = []
    · rw [if_pos hm]
      constructor
      · intro h
        simp at h
      · rintro ⟨hex, _⟩
        obtain ⟨kw, hkw, hc⟩ := hex
        rw [hmain_iff.mp hm kw hkw] at hc
        cases hc
    · rw [if_neg hm]
      by_cases hs : (found_section_keywords (pyLower t)).length < 2
      · rw [if_pos hs]
        constructor
        · intro h
          simp at h
        · rintro ⟨_, h2⟩
          omega
      · rw [if_neg hs]
        constructor
        · intro _
          exact ⟨hex_iff.mp hm, by omega⟩
        · intro _
          rfl
  · intro hall
    rw [hred, if_pos (hmain_iff.mpr hall)]
  · intro hex hs
    rw [hred, if_neg (hex_iff.mpr hex), if_pos hs]

/-- C6, witness at the 56-character `validText`: its acceptance is
equivalent to the keyword conditions (and both sides hold). -/
theorem claim_C6_witness :
    (is_valid_message ⟨21, some validText, 0, false⟩
        = .ok (true, "Valid message") ↔
      (∃ kw ∈ main_keywords, pyContains (pyLower validText) (pyLower kw) = true)
        ∧ 2 ≤ (found_section_keywords (pyLower validText)).length) :=
  (claim_C6 ⟨21, some validText, 0, false⟩ validText rfl (by decide)).1

/-- Normalization performed by the candidate construction: a successful
build zeroes an absent/null `range.min`/`range.max` and replaces an
absent/null `company` with the sentinel. -/
theorem build_vacancy_norm (p : ParsedJson) (m : Msg) (raw : String)
    (v : VacancyData) (h : build_vacancy p m raw = some v) :
    ((rawRangeMin p = .absent ∨ rawRangeMin p = .null) → v.salary.rmin = 0)
    ∧ ((rawRangeMax p = .absent ∨ rawRangeMax p = .null) → v.salary.rmax = 0)
    ∧ ((p.company = .absent ∨ p.company = .null) → v.company = "Не указано") := by
  unfold build_vacancy at h
  cases hwf : p.work_format with
  | absent => rw [hwf] at h; simp at h
  | null => rw [hwf] at h; simp at h
  | val wf =>
    rw [hwf] at h
    dsimp only at h
    by_cases hw : wf = "Віддаленно"
    · rw [if_pos hw] at h
      cases hsal : p.salary with
      | null => rw [hsal] at h; simp at h
      | absent =>
        rw [hsal] at h
        dsimp only at h
        unfold build_salary at h
        dsimp only at h
        unfold build_fields at h
        split_ifs at h with hguard
        cases h
        refine ⟨fun _ => ?_, fun _ => ?_, fun hc => ?_⟩
        · simp [orZero]
        · simp [orZero]
        · rcases hc with hc | hc <;> simp [hc]
      | val s =>
        rw [hsal] at h
        dsimp only at h
        unfold build_salary at h
        cases hr : s.range with
        | null => rw [hr] at h; simp at h
        | absent =>
          rw [hr] at h
          dsimp only at h
          unfold build_fields at h
          split_ifs at h with hguard
          cases h
          refine ⟨fun _ => ?_, fun _ => ?_, fun hc => ?_⟩
          · simp [orZero]
          · simp [orZero]
          · rcases hc with hc | hc <;> simp [hc]
        | val r =>
          rw [hr] at h
          dsimp only at h
          unfold build_fields at h
          split_ifs at h with hguard
          cases h
          refine ⟨fun hc => ?_, fun hc => ?_, fun hc => ?_⟩
          · simp only [rawRangeMin, hsal, hr] at hc
            rcases hc with hc | hc <;> simp [hc, orZero]
          · simp only [rawRangeMax, hsal, hr] at hc
            rcases hc with hc | hc <;> simp [hc, orZero]
          · rcases hc with hc | hc <;> simp [hc]
    · rw [if_neg hw] at h
      cases h

/-- C7, confirmed: whenever `parse_vacancy` produces a candidate from the
raw extraction output `p`, the candidate's `salary.range.min` and
`salary.range.max` are 0 whenever the raw JSON has them absent or null, and
its `company` is the sentinel `"Не указано"` whenever the raw `company` is
absent or null; the candidate's `rmin`/`rmax`/`company` fields are total
(never unset) by construction. -/
theorem claim_C7 (ext : Msg → ClaudeOutcome) (m : Msg) (p : ParsedJson)
    (v : VacancyData) (hp : parse_with_claude (ext m) = some p)
    (h : parse_vacancy ext m = .ok (some v)) :
    ((rawRangeMin p = .absent ∨ rawRangeMin p = .null) → v.salary.rmin = 0)
    ∧ ((rawRangeMax p = .absent ∨ rawRangeMax p = .null) → v.salary.rmax = 0)
    ∧ ((p.company = .absent ∨ p.company = .null) →
        v.company = "Не указано") := by
  unfold parse_vacancy at h
  cases hval : is_valid_message m with
  | error e => rw [hval] at h; cases h
  | ok res =>
    rw [hval] at h
    obtain ⟨b, reason⟩ := res
    cases b with
    | false => simp at h
    | true =>
      dsimp only at h
      rw [hp] at h
      dsimp only at h
      simp only [Except.ok.injEq] at h
      exact build_vacancy_norm p m (m.text.getD "") v h

set_option maxRecDepth 8000 in
/-- C7, witness: under `extW` the raw output `pGood` has
`salary.range.min = null`, `salary.range.max = null` and `company = null`,
and the candidate built from `mGood` carries `rmin = 0`, `rmax = 0` and the
`"Не указано"` sentinel. -/
theorem claim_C7_witness :
    vGood.salary.rmin = 0 ∧ vGood.salary.rmax = 0
      ∧ vGood.company = "Не указано" :=
  ⟨(claim_C7 extW mGood pGood vGood rfl (by decide)).1 (by decide),
   (claim_C7 extW mGood pGood vGood rfl (by decide)).2.1 (by decide),
   (claim_C7 extW mGood pGood vGood rfl (by decide)).2.2 (by decide)⟩

/-- The head surviving a `dropWhile` does not satisfy the predicate. -/
theorem head_dropWhile_not {α : Type} (p : α → Bool) (l : List α) (c : α)
    (h : (l.dropWhile p).head? = some c) : p c = false := by
  induction l with
  | nil => simp [List.dropWhile] at h
  | cons a t ih =>
    rw [List.dropWhile_cons] at h
    by_cases hp : p a
    · rw [if_pos hp] at h
      exact ih h
    · rw [if_neg hp] at h
      simp only [List.head?_cons, Option.some.injEq] at h
      subst h
      simpa using hp

/-- A list whose head does not satisfy `p` is unchanged by `dropWhile`. -/
theorem dropWhile_eq_self_of_head {α : Type} (p : α → Bool) (l : List α)
    (h : ∀ c, l.head? = some c → p c = false) : l.dropWhile p = l := by
  cases l with
  | nil => rfl
  | cons a t =>
    rw [List.dropWhile_cons, if_neg]
    simp [h a rfl]

/-- The first character of a stripped string is not whitespace. -/
theorem pyStrip_head_not_space (s : String) (c : Char)
    (h : (pyStrip s).data.head? = some c) : pySpace c = false := by
  unfold pyStrip at h
  rw [List.head?_reverse] at h
  have hV : ((s.data.dropWhile pySpace).reverse).getLast? = some c := by
    obtain ⟨pre, hpre⟩ :=
      List.dropWhile_suffix (l := (s.data.dropWhile pySpace).reverse) pySpace
    have hne :
        (s.data.dropWhile pySpace).reverse.dropWhile pySpace ≠ [] := by
      intro hnil
      rw [hnil] at h
      cases h
    calc ((s.data.dropWhile pySpace).reverse).getLast?
        = (pre ++
            (s.data.dropWhile pySpace).reverse.dropWhile pySpace).getLast? := by
          rw [hpre]
      _ = ((s.data.dropWhile pySpace).reverse.dropWhile pySpace).getLast? :=
          List.getLast?_append_of_ne_nil _ hne
      _ = some c := h
  rw [List.getLast?_reverse] at hV
  exact head_dropWhile_not pySpace _ c hV

/-- The last character of a stripped string is not whitespace. -/
theorem pyStrip_last_not_space (s : String) (c : Char)
    (h : (pyStrip s).data.getLast? = some c) : pySpace c = false := by
  unfold pyStrip at h
  rw [List.getLast?_reverse] at h
  exact head_dropWhile_not pySpace _ c h

/-- A string with non-whitespace first and last characters is unchanged by
`pyStrip`. -/
theorem pyStrip_eq_self (s : String)
    (hh : ∀ c, s.data.head? = some c → pySpace c = false)
    (hl : ∀ c, s.data.getLast? = some c → pySpace c = false) :
    pyStrip s = s := by
  unfold pyStrip
  rw [dropWhile_eq_self_of_head pySpace s.data hh]
  rw [dropWhile_eq_self_of_head pySpace s.data.reverse
    (fun c hc => hl c (by rwa [List.head?_reverse] at hc))]
  cases s with
  | mk d => simp

/-- The URL base starts with the letter h. -/
theorem tme_head : tmeBase.data = 'h' :: "ttps://t.me/".data := by decide

/-- Every `some` result of `format_contact` starts with the letter h, ends in a
non-whitespace character, and carries the `https://t.me/` base as a
prefix. -/
theorem format_contact_shape (s r : String) (hs : s ≠ "")
    (hf : format_contact (some s) = some r) :
    r.data.head? = some 'h'
      ∧ (∀ c, r.data.getLast? = some c → pySpace c = false)
      ∧ tmeBase.data.isPrefixOf r.data = true := by
  unfold format_contact at hf
  dsimp only at hf
  rw [if_neg hs] at hf
  by_cases hat : (pyStrip s).data.head? = some '@'
  · rw [if_pos hat] at hf
    simp only [Option.some.injEq] at hf
    subst hf
    have hdata : (tmeBase ++ (⟨(pyStrip s).data.tail⟩ : String)).data
        = tmeBase.data ++ (pyStrip s).data.tail := by
      rw [String.data_append]
    have hcons : (pyStrip s).data = '@' :: (pyStrip s).data.tail := by
      cases hd : (pyStrip s).data with
      | nil => rw [hd] at hat; cases hat
      | cons a t =>
        rw [hd] at hat
        simp only [List.head?_cons, Option.some.injEq] at hat
        subst hat
        rfl
    refine ⟨?_, ?_, ?_⟩
    · rw [hdata, tme_head]
      rfl
    · intro ch hch
      rw [hdata] at hch
      cases htl : (pyStrip s).data.tail with
      | nil =>
        rw [htl, List.append_nil] at hch
        have : ch = '/' := by
          rw [show tmeBase.data.getLast? = some '/' from by decide] at hch
          injection hch with e
          exact e.symm
        subst this
        decide
      | cons b u =>
        rw [htl] at hch
        rw [List.getLast?_append_of_ne_nil _ (by simp)] at hch
        apply pyStrip_last_not_space s ch
        rw [hcons, htl]
        rw [show ('@' :: b :: u : List Char) = ['@'] ++ (b :: u) from rfl]
        rw [List.getLast?_append_of_ne_nil _ (by simp)]
        exact hch
    · rw [hdata]
      exact List.isPrefixOf_iff_prefix.mpr ⟨_, rfl⟩
  · rw [if_neg hat] at hf
    by_cases hpre : tmeBase.data.isPrefixOf (pyStrip s).data = true
    · rw [if_neg (by simp [hpre])] at hf
      simp only [Option.some.injEq] at hf
      subst hf
      obtain ⟨u, hu⟩ := List.isPrefixOf_iff_prefix.mp hpre
      refine ⟨?_, ?_, hpre⟩
      · rw [← hu, tme_head]
        rfl
      · exact fun ch hch => pyStrip_last_not_space s ch hch
    · rw [if_pos (by simp [hpre])] at hf
      simp only [Option.some.injEq] at hf
      subst hf
      have hdata : (tmeBase ++ pyStrip s).data
          = tmeBase.data ++ (pyStrip s).data := String.data_append _ _
      refine ⟨?_, ?_, ?_⟩
      · rw [hdata, tme_head]
        rfl
      · intro ch hch
        rw [hdata] at hch
        cases hd : (pyStrip s).data with
        | nil =>
          rw [hd, List.append_nil] at hch
          have : ch = '/' := by
            rw [show tmeBase.data.getLast? = some '/' from by decide] at hch
            injection hch with e
            exact e.symm
          subst this
          decide
        | cons b u =>
          rw [hd] at hch
          rw [List.getLast?_append_of_ne_nil _ (by simp)] at hch
          apply pyStrip_last_not_space s ch
          rw [hd]
          exact hch
      · rw [hdata]
        exact List.isPrefixOf_iff_prefix.mpr ⟨_, rfl⟩

/-- A string that starts with the letter h, ends in non-whitespace, and carries
the URL base as a prefix is a fixed point of `format_contact`. -/
theorem format_contact_fix (r : String)
    (hh : r.data.head? = some 'h')
    (hl : ∀ c, r.data.getLast? = some c → pySpace c = false)
    (hp : tmeBase.data.isPrefixOf r.data = true) :
    format_contact (some r) = some r := by
  have hne : r ≠ "" := by
    intro h
    subst h
    cases hh
  have hstrip : pyStrip r = r := by
    apply pyStrip_eq_self r
    · intro c hc
      rw [hh] at hc
      injection hc with e
      subst e
      decide
    · exact hl
  unfold format_contact
  dsimp only
  rw [if_neg hne, hstrip]
  rw [if_neg (by rw [hh]; decide)]
  rw [if_neg (by simp [hp])]

/-- C10, confirmed: `_format_contact` returns `None` exactly on `None` or
empty input; every `some` result starts with `https://t.me/` and is itself
a fixed point of the function, which makes `_format_contact`
idempotent. -/
theorem claim_C10 (c : Option String) :
    (format_contact c = none ↔ c = none ∨ c = some "")
    ∧ (∀ r, format_contact c = some r →
        tmeBase.data.isPrefixOf r.data = true
          ∧ format_contact (some r) = some r)
    ∧ format_contact (format_contact c) = format_contact c := by
  have h2 : ∀ r, format_contact c = some r →
      tmeBase.data.isPrefixOf r.data = true
        ∧ format_contact (some r) = some r := by
    intro r hf
    cases c with
    | none => cases hf
    | some s =>
      by_cases hs : s = ""
      · subst hs
        unfold format_contact at hf
        simp at hf
      · obtain ⟨hh, hl, hp⟩ := format_contact_shape s r hs hf
        exact ⟨hp, format_contact_fix r hh hl hp⟩
  refine ⟨?_, h2, ?_⟩
  · cases c with
    | none => simp [format_contact]
    | some s =>
      by_cases hs : s = ""
      · subst hs
        simp [format_contact]
      · cases hf : format_contact (some s) with
        | none =>
          unfold format_contact at hf
          dsimp only at hf
          rw [if_neg hs] at hf
          by_cases hat : (pyStrip s).data.head? = some '@'
          · rw [if_pos hat] at hf
            cases hf
          · rw [if_neg hat] at hf
            by_cases hpre : tmeBase.data.isPrefixOf (pyStrip s).data = true
            · rw [if_neg (by simp [hpre])] at hf
              cases hf
            · rw [if_pos (by simp [hpre])] at hf
              cases hf
        | some r =>
          constructor
          · intro h
            cases h
          · rintro (h | h)
            · cases h
            · injection h with h
              exact absurd h hs
  · cases hf : format_contact c with
    | none => rfl
    | some r => exact (h2 r hf).2

/-- C10, witness at the concrete contact `"@user"`: the formatted result
`https://t.me/user` carries the URL base and is unchanged by a second
application. -/
theorem claim_C10_witness :
    tmeBase.data.isPrefixOf ("https://t.me/user" : String).data = true
      ∧ format_contact (some "https://t.me/user")
          = some "https://t.me/user" :=
  (claim_C10 (some "@user")).2.1 "https://t.me/user" (by decide)
